import Mathlib

/-!
# TextDocumentEditorView

A shallow embedding of `src/Gui/TextDocumentEditorView.cpp`.

The view bridges a text document object (`App::TextDocument`) and a plain text
widget (`QPlainTextEdit`).  All the objects the view talks to are gathered in
one record, `World`; every member function of the view becomes a function on
that record.  Signal delivery is synchronous, as in the toolkit: emitting a
signal runs the connected slot before the emitting call returns.

The notification cycle
`Text.setValue -> sourceChanged -> refresh -> setPlainText -> textChanged ->
saveToObject -> Text.setValue` is a genuine recursion in the program.  It is
embedded with a fuel argument; the theorems show that a small amount of fuel
always suffices, i.e. that the cycle is cut by the connection block taken in
`saveToObject`.

Text values (`std::string` holding UTF-8, `QString`) are represented by the
text they encode, as `String`.
-/

namespace TextDocumentEditorView

/-! ## Collaborators -/

/-- The C library `strcmp` on the characters of two C strings (the characters
before the terminating NUL).  Only the sign of the result is specified by C;
it is `0` exactly when the strings agree. -/
def strcmpChars : List Char → List Char → Int
  | [], [] => 0
  | [], _ :: _ => -1
  | _ :: _, [] => 1
  | a :: as, b :: bs =>
    if a = b then strcmpChars as bs else if a < b then -1 else 1

/-- The call `strcmp(a, b)`. -/
def strcmp (a b : String) : Int :=
  strcmpChars a.data b.data

/-- The conversion `QString::fromUtf8`.  Property values hold valid UTF-8, on
which `fromUtf8` and `toUtf8` are inverse to each other; both sides are
represented by the decoded text. -/
def QString.fromUtf8 (bytes : String) : String := bytes

/-- The conversion `QString::toUtf8`, the inverse of `QString.fromUtf8` on
text. -/
def QString.toUtf8 (text : String) : String := text

/-- The text cursor of the widget: a selection exists when the anchor and the
position differ. -/
structure QTextCursor where
  anchor : Nat
  position : Nat
deriving DecidableEq, Repr

/-- The query `QTextCursor::hasSelection`. -/
def QTextCursor.hasSelection (c : QTextCursor) : Bool :=
  c.anchor != c.position

/-- The part of a `QPlainTextEdit` (and of its `QTextDocument`) that the view
reads or writes. -/
structure QPlainTextEdit where
  plainText : String
  readOnly : Bool
  textCursor : QTextCursor
  undoAvailable : Bool
  redoAvailable : Bool
deriving DecidableEq, Repr

/-- The getter `QPlainTextEdit::isReadOnly`. -/
def QPlainTextEdit.isReadOnly (e : QPlainTextEdit) : Bool := e.readOnly

/-- The getter `QTextDocument::toPlainText` of the widget's document. -/
def QPlainTextEdit.toPlainText (e : QPlainTextEdit) : String := e.plainText

/-- The getter `QTextDocument::isUndoAvailable` of the widget's document. -/
def QPlainTextEdit.isUndoAvailable (e : QPlainTextEdit) : Bool := e.undoAvailable

/-- The getter `QTextDocument::isRedoAvailable` of the widget's document. -/
def QPlainTextEdit.isRedoAvailable (e : QPlainTextEdit) : Bool := e.redoAvailable

/-- The widget after `QPlainTextEdit::setPlainText(text)`, before the
`textChanged()` signal it emits is delivered: the previous content is removed,
the cursor is at the start and the undo/redo history is reset. -/
def QPlainTextEdit.withPlainText (e : QPlainTextEdit) (text : String) : QPlainTextEdit :=
  { e with plainText := text, textCursor := ⟨0, 0⟩, undoAvailable := false, redoAvailable := false }

/-- Modelled from the spec: the document-model object `App::TextDocument`, whose
class is not part of the source slice.  It exposes get/set for a text and a
label property and a dirty ("touched") flag that `purgeTouched` clears. -/
structure TextDocument where
  Text : String
  Label : String
  touched : Bool
deriving DecidableEq, Repr

/-- A call the view makes on one of its collaborators, in the order made. -/
inductive Call where
  | textSetValue (value : String)
  | purgeTouched
  | documentSave
  | updateEditorActions
  | setWindowTitle (title : String)
  | setPlainText (text : String)
  | cut
  | copy
  | paste
  | undo
  | redo
deriving DecidableEq, Repr

/-- The view together with the objects it is wired to. -/
structure World where
  /-- The hosted widget, `editor`. -/
  editor : QPlainTextEdit
  /-- The model object, `textDocument`. -/
  textDocument : TextDocument
  /-- The text held by `QApplication::clipboard()`. -/
  clipboardText : String
  /-- The member `aboutToClose`. -/
  aboutToClose : Bool
  /-- The window title of the view. -/
  windowTitle : String
  /-- Whether `textConnection` is connected to the model's text signal. -/
  textConnected : Bool
  /-- The number of live `shared_connection_block`s on `textConnection`. -/
  textBlocks : Nat
  /-- Whether `labelConnection` is connected to the model's label signal. -/
  labelConnected : Bool
  /-- Whether the widget's `textChanged` signal is connected to the view's
  `textChanged` slot (the `connect` at the end of the constructor). -/
  editorTextChangedConnected : Bool
  /-- The calls made on collaborators so far. -/
  calls : List Call
deriving DecidableEq, Repr

/-- What a native editing operation of the widget (`cut`, `copy`, `paste`,
`undo`, `redo`) leaves behind: the widget, the clipboard, and whether the
widget emitted `textChanged()`. -/
structure NativeResult where
  editor : QPlainTextEdit
  clipboardText : String
  emitsTextChanged : Bool

/-- The text-editing engine of the toolkit.  It is outside the source slice and
is taken as a parameter: each operation maps the widget and the clipboard to a
`NativeResult`. -/
structure NativeOps where
  cut : QPlainTextEdit → String → NativeResult
  copy : QPlainTextEdit → String → NativeResult
  paste : QPlainTextEdit → String → NativeResult
  undo : QPlainTextEdit → String → NativeResult
  redo : QPlainTextEdit → String → NativeResult

/-- Appends one call to the record of calls. -/
def World.log (w : World) (c : Call) : World :=
  { w with calls := w.calls ++ [c] }

/-- Modelled from the spec: `App::TextDocument::purgeTouched`, the "mark as
unmodified" operation of the model. -/
def purgeTouched (w : World) : World :=
  { w.log Call.purgeTouched with
    textDocument := { w.textDocument with touched := false } }

/-- Modelled from the spec: `MainWindow::updateEditorActions`, the host's
"refresh editor-related action enabled-state" operation.  It holds no state of
the view. -/
def updateEditorActions (w : World) : World :=
  w.log Call.updateEditorActions

/-- Modelled from the spec: `Gui::Document::save`, the "persist/save" operation
of the owning document context. -/
def documentSave (w : World) : World :=
  w.log Call.documentSave

/-- The setter `QWidget::setWindowTitle`. -/
def setWindowTitle (title : String) (w : World) : World :=
  { w.log (Call.setWindowTitle title) with windowTitle := title }

/-! ## The notification cycle -/

mutual

/-- Modelled from the spec: `textDocument->Text.setValue(value)`.  The model
stores the value, becomes touched and fires its text-change notification; the
slot bound by `setupConnection` runs unless the connection is disconnected or
blocked. -/
def Text_setValue : Nat → String → World → Option World
  | 0, _, _ => none
  | fuel + 1, value, w =>
    let w1 : World :=
      { w.log (Call.textSetValue value) with
        textDocument := { w.textDocument with Text := value, touched := true } }
    if w1.textConnected && w1.textBlocks == 0 then sourceChanged fuel w1 else some w1

/-- The slot `TextDocumentEditorView::sourceChanged`. -/
def sourceChanged : Nat → World → Option World
  | 0, _ => none
  | fuel + 1, w => refresh fuel w

/-- The method `TextDocumentEditorView::refresh`. -/
def refresh : Nat → World → Option World
  | 0, _ => none
  | fuel + 1, w =>
    let text := QString.fromUtf8 w.textDocument.Text
    setPlainText fuel text w

/-- The call `getEditor()->setPlainText(text)`: the content is replaced and the
widget emits `textChanged()`, as it does whenever its content is set, also to
the text it already holds. -/
def setPlainText : Nat → String → World → Option World
  | 0, _, _ => none
  | fuel + 1, text, w =>
    emitTextChanged fuel
      { w.log (Call.setPlainText text) with editor := w.editor.withPlainText text }

/-- Delivery of the widget's `textChanged()` signal to the view. -/
def emitTextChanged : Nat → World → Option World
  | 0, _ => none
  | fuel + 1, w =>
    if w.editorTextChangedConnected then textChanged fuel w else some w

/-- The slot `TextDocumentEditorView::textChanged`. -/
def textChanged : Nat → World → Option World
  | 0, _ => none
  | fuel + 1, w => saveToObject fuel w

/-- The method `TextDocumentEditorView::saveToObject`.  The
`shared_connection_block` lives from the first statement to the end of the
scope. -/
def saveToObject : Nat → World → Option World
  | 0, _ => none
  | fuel + 1, w =>
    let w1 : World := { w with textBlocks := w.textBlocks + 1 }
    match Text_setValue fuel (QString.toUtf8 w1.editor.toPlainText) w1 with
    | none => none
    | some w2 =>
      let w3 := purgeTouched w2
      some { w3 with textBlocks := w3.textBlocks - 1 }

end

/-! ## The view -/

/-- The slot `TextDocumentEditorView::labelChanged`. -/
def labelChanged (w : World) : World :=
  setWindowTitle (QString.fromUtf8 w.textDocument.Label ++ "[*]") w

/-- Modelled from the spec: `textDocument->Label.setValue(value)`.  The model
stores the label and fires its label-change notification. -/
def Label_setValue (value : String) (w : World) : World :=
  let w1 : World := { w with textDocument := { w.textDocument with Label := value } }
  if w1.labelConnected then labelChanged w1 else w1

/-- The method `TextDocumentEditorView::setupEditor`. -/
def setupEditor (fuel : Nat) (w : World) : Option World :=
  refresh fuel (labelChanged w)

/-- The method `TextDocumentEditorView::setupConnection`. -/
def setupConnection (w : World) : World :=
  { w with textConnected := true, labelConnected := true }

/-- The constructor.  The member `aboutToClose` starts as `false` (its
declaration is in the header; the value is the one the spec gives).  The widget's
`textChanged` signal is connected last, after `setupEditor` has run.  The
connections of `undoAvailable`, `redoAvailable`, `copyAvailable` and
`modificationChanged` reach only the main window and the window's modified
marker, which hold nothing the view reads, and are not represented. -/
def construct (fuel : Nat) (txtDoc : TextDocument) (e : QPlainTextEdit)
    (clipboardText : String) : Option World :=
  let w0 : World :=
    { editor := e
      textDocument := txtDoc
      clipboardText := clipboardText
      aboutToClose := false
      windowTitle := ""
      textConnected := false
      textBlocks := 0
      labelConnected := false
      editorTextChangedConnected := false
      calls := [] }
  match setupEditor fuel w0 with
  | none => none
  | some w1 =>
    let w2 := setupConnection w1
    some { w2 with editorTextChangedConnected := true }

/-- The destructor. -/
def destruct (w : World) : World :=
  { w with textConnected := false, labelConnected := false }

/-- The handler `TextDocumentEditorView::showEvent`. -/
def showEvent (w : World) : World :=
  updateEditorActions w

/-- The handler `TextDocumentEditorView::closeEvent`.  The argument is
`event->isAccepted()` after `MDIView::closeEvent(event)`. -/
def closeEvent (accepted : Bool) (w : World) : World :=
  if accepted then
    updateEditorActions { w with aboutToClose := true }
  else
    w

/-- The query `TextDocumentEditorView::onHasMsg`. -/
def onHasMsg (msg : String) (w : World) : Bool :=
  if w.aboutToClose then
    false
  else if strcmp msg "Save" = 0 then
    true
  else if strcmp msg "Cut" = 0 then
    !w.editor.isReadOnly && w.editor.textCursor.hasSelection
  else if strcmp msg "Copy" = 0 then
    w.editor.textCursor.hasSelection
  else if strcmp msg "Paste" = 0 then
    if w.editor.isReadOnly then
      false
    else
      let text := w.clipboardText
      !text.isEmpty
  else if strcmp msg "Undo" = 0 then
    w.editor.isUndoAvailable
  else if strcmp msg "Redo" = 0 then
    w.editor.isRedoAvailable
  else
    false

/-- A native editing operation of the widget, called from `onMsg`: the engine
updates the widget and the clipboard, and a `textChanged()` it emits is
delivered. -/
def native (fuel : Nat) (c : Call) (op : QPlainTextEdit → String → NativeResult)
    (w : World) : Option World :=
  let r := op w.editor w.clipboardText
  let w1 : World := { w.log c with editor := r.editor, clipboardText := r.clipboardText }
  if r.emitsTextChanged then emitTextChanged fuel w1 else some w1

/-- The command `TextDocumentEditorView::onMsg`: the returned flag and the world
after the call. -/
def onMsg (ops : NativeOps) (fuel : Nat) (msg : String) (w : World) : Option (Bool × World) :=
  if w.aboutToClose then
    some (false, w)
  else if strcmp msg "Save" = 0 then
    match saveToObject fuel w with
    | none => none
    | some w1 => some (true, documentSave w1)
  else if strcmp msg "Cut" = 0 then
    (native fuel Call.cut ops.cut w).map (fun w1 => (true, w1))
  else if strcmp msg "Copy" = 0 then
    (native fuel Call.copy ops.copy w).map (fun w1 => (true, w1))
  else if strcmp msg "Paste" = 0 then
    (native fuel Call.paste ops.paste w).map (fun w1 => (true, w1))
  else if strcmp msg "Undo" = 0 then
    (native fuel Call.undo ops.undo w).map (fun w1 => (true, w1))
  else if strcmp msg "Redo" = 0 then
    (native fuel Call.redo ops.redo w).map (fun w1 => (true, w1))
  else
    some (false, w)

/-! ## Sample inputs -/

/-- A widget with content, a selection and undo history. -/
def sampleEditor : QPlainTextEdit :=
  { plainText := "old", readOnly := false, textCursor := ⟨0, 2⟩,
    undoAvailable := true, redoAvailable := true }

/-- A model object that has been modified. -/
def sampleDocument : TextDocument :=
  { Text := "abc", Label := "Notes", touched := true }

/-- An engine whose operations leave the widget alone; `cut` and `paste`
report a text change. -/
def sampleOps : NativeOps :=
  { cut := fun e c => ⟨e, c, true⟩
    copy := fun e c => ⟨e, c, false⟩
    paste := fun e c => ⟨e, c, true⟩
    undo := fun e c => ⟨e, c, false⟩
    redo := fun e c => ⟨e, c, false⟩ }

/-- The view that the constructor builds from the sample model and widget. -/
def sampleView : World :=
  { editor :=
      { plainText := "abc", readOnly := false, textCursor := ⟨0, 0⟩,
        undoAvailable := false, redoAvailable := false }
    textDocument := sampleDocument
    clipboardText := "clip"
    aboutToClose := false
    windowTitle := "Notes[*]"
    textConnected := true
    textBlocks := 0
    labelConnected := true
    editorTextChangedConnected := true
    calls := [Call.setWindowTitle "Notes[*]", Call.setPlainText "abc"] }

/-- An open view whose widget was edited by the user: editable, with a
selection, undo and redo history, and a clipboard that holds text. -/
def sampleEdited : World :=
  { sampleView with editor := sampleEditor }

/-- The edited view after its close event was accepted. -/
def sampleClosing : World :=
  closeEvent true sampleEdited

/-! ## Closed forms of the notification cycle -/

/-- The world that `saveToObject` leaves behind. -/
def afterSave (w : World) : World :=
  { w with
    textDocument :=
      { w.textDocument with Text := QString.toUtf8 w.editor.toPlainText, touched := false }
    calls := w.calls ++
      [Call.textSetValue (QString.toUtf8 w.editor.toPlainText), Call.purgeTouched] }

/-- The world that delivering the widget's `textChanged()` leaves behind. -/
def afterEmit (w : World) : World :=
  if w.editorTextChangedConnected then afterSave w else w

/-- The world that `setPlainText(text)` leaves behind. -/
def afterSetPlainText (text : String) (w : World) : World :=
  afterEmit { w.log (Call.setPlainText text) with editor := w.editor.withPlainText text }

/-- The world that `refresh` leaves behind. -/
def afterRefresh (w : World) : World :=
  afterSetPlainText (QString.fromUtf8 w.textDocument.Text) w

/-! ## Facts about the cycle -/

theorem Text_setValue_blocked (n : Nat) (value : String) (w : World)
    (h : w.textBlocks ≠ 0) :
    Text_setValue (n + 1) value w =
      some { w.log (Call.textSetValue value) with
             textDocument := { w.textDocument with Text := value, touched := true } } := by
  simp [Text_setValue, World.log, h]

theorem saveToObject_eq (n : Nat) (w : World) :
    saveToObject (n + 2) w = some (afterSave w) := by
  rw [saveToObject, Text_setValue_blocked n _ _ (by simp)]
  simp [afterSave, purgeTouched, World.log]

theorem textChanged_eq (n : Nat) (w : World) :
    textChanged (n + 3) w = some (afterSave w) := by
  rw [textChanged, saveToObject_eq]

theorem emitTextChanged_eq (n : Nat) (w : World) :
    emitTextChanged (n + 4) w = some (afterEmit w) := by
  rw [emitTextChanged, textChanged_eq]
  simp only [afterEmit]
  split <;> rfl

theorem setPlainText_eq (n : Nat) (text : String) (w : World) :
    setPlainText (n + 5) text w = some (afterSetPlainText text w) := by
  rw [setPlainText, emitTextChanged_eq]
  rfl

theorem refresh_eq (n : Nat) (w : World) :
    refresh (n + 6) w = some (afterRefresh w) := by
  rw [refresh, setPlainText_eq]
  rfl

theorem sourceChanged_eq (n : Nat) (w : World) :
    sourceChanged (n + 7) w = some (afterRefresh w) := by
  rw [sourceChanged, refresh_eq]

/-! ## String comparison -/

theorem strcmpChars_eq_zero_iff (a b : List Char) : strcmpChars a b = 0 ↔ a = b := by
  induction a generalizing b with
  | nil => cases b <;> simp [strcmpChars]
  | cons x xs ih =>
    cases b with
    | nil => simp [strcmpChars]
    | cons y ys =>
      by_cases hxy : x = y
      · simp [strcmpChars, hxy, ih]
      · by_cases hlt : x < y <;> simp [strcmpChars, hxy, hlt]

theorem strcmp_eq_zero_iff (a b : String) : strcmp a b = 0 ↔ a = b := by
  rw [strcmp, strcmpChars_eq_zero_iff]
  exact ⟨fun h => String.ext h, fun h => by rw [h]⟩

/-! ## Commands while the view is closing -/

/-- C1: once `aboutToClose` is set, `onHasMsg` answers `false` for every command
string, whatever the read-only flag, the selection, the clipboard and the
undo/redo availability are. -/
theorem onHasMsg_closing (w : World) (msg : String) (h : w.aboutToClose = true) :
    onHasMsg msg w = false := by
  simp [onHasMsg, h]

theorem onHasMsg_closing_witness :
    sampleClosing.aboutToClose = true ∧ onHasMsg "Copy" sampleClosing = false :=
  ⟨by decide, onHasMsg_closing sampleClosing "Copy" (by decide)⟩

/-- C2: once `aboutToClose` is set, `onMsg` returns `false` for every command
string and leaves the whole world as it was: the widget, the model's text and
touched flag and the record of calls (hence the number of document saves) are
unchanged.  No fuel is needed. -/
theorem onMsg_closing (ops : NativeOps) (fuel : Nat) (w : World) (msg : String)
    (h : w.aboutToClose = true) :
    onMsg ops fuel msg w = some (false, w) := by
  simp [onMsg, h]

theorem onMsg_closing_witness :
    sampleClosing.aboutToClose = true ∧
      onMsg sampleOps 0 "Save" sampleClosing = some (false, sampleClosing) :=
  ⟨by decide, onMsg_closing sampleOps 0 sampleClosing "Save" (by decide)⟩

/-! ## Commands while the view is open -/

/-- C3: while `aboutToClose` is not set, `onHasMsg` is the availability table:
`Save` is available; `Cut` iff the widget is not read-only and there is a
selection; `Copy` iff there is a selection; `Paste` iff the widget is not
read-only and the clipboard text is not empty; `Undo` and `Redo` are the
document's undo and redo flags; every other string is unavailable. -/
theorem onHasMsg_open (w : World) (h : w.aboutToClose = false) :
    onHasMsg "Save" w = true ∧
    (onHasMsg "Cut" w = true ↔
      w.editor.isReadOnly = false ∧ w.editor.textCursor.hasSelection = true) ∧
    (onHasMsg "Copy" w = true ↔ w.editor.textCursor.hasSelection = true) ∧
    (onHasMsg "Paste" w = true ↔
      w.editor.isReadOnly = false ∧ w.clipboardText ≠ "") ∧
    onHasMsg "Undo" w = w.editor.isUndoAvailable ∧
    onHasMsg "Redo" w = w.editor.isRedoAvailable ∧
    ∀ msg : String, msg ∉ ["Save", "Cut", "Copy", "Paste", "Undo", "Redo"] →
      onHasMsg msg w = false := by
  refine ⟨?_, ?_, ?_, ?_, ?_, ?_, ?_⟩
  · simp [onHasMsg, h, strcmp_eq_zero_iff]
  · simp [onHasMsg, h, strcmp_eq_zero_iff]
  · simp [onHasMsg, h, strcmp_eq_zero_iff]
  · have hempty : w.clipboardText.isEmpty = false ↔ w.clipboardText ≠ "" := by
      rw [Ne, ← String.isEmpty_iff, Bool.not_eq_true]
    simp [onHasMsg, h, strcmp_eq_zero_iff, hempty]
  · simp [onHasMsg, h, strcmp_eq_zero_iff]
  · simp [onHasMsg, h, strcmp_eq_zero_iff]
  · intro msg hmsg
    simp only [List.mem_cons, List.mem_singleton, not_or, List.mem_nil_iff, not_false_eq_true,
      and_true] at hmsg
    simp [onHasMsg, h, strcmp_eq_zero_iff, hmsg]

theorem onHasMsg_open_witness :
    sampleEdited.aboutToClose = false ∧ onHasMsg "Cut" sampleEdited = true ∧
      onHasMsg "cut" sampleEdited = false :=
  have h := onHasMsg_open sampleEdited (by decide)
  ⟨by decide, h.2.1.mpr (by decide), h.2.2.2.2.2.2 "cut" (by decide)⟩

theorem native_eq (n : Nat) (c : Call) (op : QPlainTextEdit → String → NativeResult)
    (w : World) :
    native (n + 4) c op w =
      some (if (op w.editor w.clipboardText).emitsTextChanged then
          afterEmit { w.log c with
            editor := (op w.editor w.clipboardText).editor
            clipboardText := (op w.editor w.clipboardText).clipboardText }
        else
          { w.log c with
            editor := (op w.editor w.clipboardText).editor
            clipboardText := (op w.editor w.clipboardText).clipboardText }) := by
  simp only [native, emitTextChanged_eq]
  split <;> rfl

/-- C4: while `aboutToClose` is not set, `onMsg` returns, and it returns `true`
exactly when the command string is one of `Save`, `Cut`, `Copy`, `Paste`,
`Undo`, `Redo`, compared character by character (`save` and `SAVE` are not
recognised).  For any other string it returns `false` and leaves the whole
world as it was, whatever the widget, the clipboard and the editing engine
are. -/
theorem onMsg_open (ops : NativeOps) (fuel : Nat) (w : World) (msg : String)
    (hfuel : 4 ≤ fuel) (h : w.aboutToClose = false) :
    (∃ r w', onMsg ops fuel msg w = some (r, w') ∧
      (r = true ↔ msg ∈ ["Save", "Cut", "Copy", "Paste", "Undo", "Redo"])) ∧
    (msg ∉ ["Save", "Cut", "Copy", "Paste", "Undo", "Redo"] →
      onMsg ops fuel msg w = some (false, w)) ∧
    onMsg ops fuel "save" w = some (false, w) ∧
    onMsg ops fuel "SAVE" w = some (false, w) := by
  obtain ⟨n, rfl⟩ := Nat.exists_eq_add_of_le' hfuel
  have hother : ∀ m : String, m ∉ ["Save", "Cut", "Copy", "Paste", "Undo", "Redo"] →
      onMsg ops (n + 4) m w = some (false, w) := by
    intro m hm
    simp only [List.mem_cons, List.mem_singleton, not_or, List.mem_nil_iff, not_false_eq_true,
      and_true] at hm
    simp [onMsg, h, strcmp_eq_zero_iff, hm]
  refine ⟨?_, hother msg, hother "save" (by decide), hother "SAVE" (by decide)⟩
  by_cases hmem : msg ∈ ["Save", "Cut", "Copy", "Paste", "Undo", "Redo"]
  · simp only [List.mem_cons, List.mem_singleton, List.mem_nil_iff, or_false] at hmem
    rcases hmem with rfl | rfl | rfl | rfl | rfl | rfl
    · exact ⟨true, documentSave (afterSave w), by
        simp [onMsg, h, strcmp_eq_zero_iff, saveToObject_eq (n + 2) w], by simp⟩
    all_goals
      simp [onMsg, h, strcmp_eq_zero_iff, native_eq]
  · exact ⟨false, w, hother msg hmem, by simp [hmem]⟩

theorem onMsg_open_witness :
    (4 ≤ 4 ∧ sampleEdited.aboutToClose = false) ∧
      onMsg sampleOps 4 "SAVE" sampleEdited = some (false, sampleEdited) :=
  ⟨⟨by decide, by decide⟩,
    (onMsg_open sampleOps 4 sampleEdited "Redo" (by decide) (by decide)).2.2.2⟩

/-- C5: while `aboutToClose` is not set, `onMsg("Save")` returns `true` after
making exactly these calls, in this order: one write of the widget's content to
the model's text property, the purge of the touched flag (both by
`saveToObject`), then one `save` on the owning document. -/
theorem onMsg_Save (ops : NativeOps) (fuel : Nat) (w : World)
    (hfuel : 2 ≤ fuel) (h : w.aboutToClose = false) :
    ∃ w', onMsg ops fuel "Save" w = some (true, w') ∧
      w'.calls = w.calls ++
        [Call.textSetValue (QString.toUtf8 w.editor.toPlainText), Call.purgeTouched,
          Call.documentSave] ∧
      w'.textDocument.Text = QString.toUtf8 w.editor.toPlainText := by
  obtain ⟨n, rfl⟩ := Nat.exists_eq_add_of_le' hfuel
  refine ⟨documentSave (afterSave w), ?_, ?_, ?_⟩
  · simp [onMsg, h, strcmp_eq_zero_iff, saveToObject_eq n w]
  · simp [documentSave, afterSave, World.log]
  · simp [documentSave, afterSave, World.log]

theorem onMsg_Save_witness :
    (2 ≤ 2 ∧ sampleEdited.aboutToClose = false) ∧
      ∃ w', onMsg sampleOps 2 "Save" sampleEdited = some (true, w') ∧
        w'.calls = sampleEdited.calls ++
          [Call.textSetValue "old", Call.purgeTouched, Call.documentSave] ∧
        w'.textDocument.Text = "old" :=
  ⟨⟨by decide, by decide⟩, onMsg_Save sampleOps 2 sampleEdited (by decide) (by decide)⟩

/-! ## Synchronisation between the widget and the model -/

/-- C6: when the widget's text-changed notification fires, the slot
`textChanged` returns and leaves the model's text equal to the widget's
content and the model's touched flag cleared.  The only calls made are the
write of the text and the purge: `setPlainText` is not called, so `refresh` has
not run and the widget is untouched.  The number of blocks on the model's text
subscription is back to what it was, so a subscription that was unblocked
before is unblocked again. -/
theorem textChanged_saves (fuel : Nat) (w : World) (hfuel : 3 ≤ fuel) :
    ∃ w', textChanged fuel w = some w' ∧
      w'.textDocument.Text = QString.toUtf8 w.editor.toPlainText ∧
      w'.textDocument.touched = false ∧
      w'.calls = w.calls ++
        [Call.textSetValue (QString.toUtf8 w.editor.toPlainText), Call.purgeTouched] ∧
      w'.editor = w.editor ∧
      w'.textBlocks = w.textBlocks ∧
      w'.textConnected = w.textConnected ∧
      (w.editorTextChangedConnected = true →
        emitTextChanged (fuel + 1) w = some w') := by
  obtain ⟨n, rfl⟩ := Nat.exists_eq_add_of_le' hfuel
  refine ⟨afterSave w, textChanged_eq n w, rfl, rfl, rfl, rfl, rfl, rfl, ?_⟩
  intro hc
  rw [emitTextChanged_eq n w, afterEmit, if_pos hc]

theorem textChanged_saves_witness :
    3 ≤ 3 ∧
      ∃ w', textChanged 3 sampleEdited = some w' ∧
        w'.textDocument.Text = "old" ∧
        w'.textDocument.touched = false ∧
        w'.calls = sampleEdited.calls ++ [Call.textSetValue "old", Call.purgeTouched] ∧
        w'.editor = sampleEdited.editor ∧
        w'.textBlocks = 0 ∧
        w'.textConnected = true ∧
        (sampleEdited.editorTextChangedConnected = true →
          emitTextChanged 4 sampleEdited = some w') :=
  ⟨by decide, textChanged_saves 3 sampleEdited (by decide)⟩

theorem afterSave_aboutToClose (w : World) : (afterSave w).aboutToClose = w.aboutToClose := rfl

theorem afterEmit_aboutToClose (w : World) : (afterEmit w).aboutToClose = w.aboutToClose := by
  simp only [afterEmit]
  split <;> rfl

theorem afterRefresh_aboutToClose (w : World) :
    (afterRefresh w).aboutToClose = w.aboutToClose := by
  simp only [afterRefresh, afterSetPlainText, afterEmit_aboutToClose]
  rfl

theorem construct_eq (n : Nat) (txtDoc : TextDocument) (e : QPlainTextEdit) (clip : String) :
    construct (n + 3) txtDoc e clip =
      some { editor := e.withPlainText (QString.fromUtf8 txtDoc.Text)
             textDocument := txtDoc
             clipboardText := clip
             aboutToClose := false
             windowTitle := QString.fromUtf8 txtDoc.Label ++ "[*]"
             textConnected := true
             textBlocks := 0
             labelConnected := true
             editorTextChangedConnected := true
             calls := [Call.setWindowTitle (QString.fromUtf8 txtDoc.Label ++ "[*]"),
               Call.setPlainText (QString.fromUtf8 txtDoc.Text)] } := by
  simp [construct, setupEditor, refresh, setPlainText, emitTextChanged, labelChanged,
    setWindowTitle, World.log, setupConnection]

/-- C8: the member `aboutToClose` is a one-way latch.  It is `false` in the view
the constructor returns.  After `closeEvent` it is set if the close was accepted
and is otherwise what it was, and a rejected close changes nothing at all.
`showEvent`, `labelChanged`, `refresh`, `saveToObject`, `sourceChanged`,
`textChanged` and `onMsg` all return and leave the flag as it was; `onHasMsg`
only returns a flag and has no world to change.  So nothing takes the flag from
`true` back to `false`. -/
theorem aboutToClose_latch (ops : NativeOps) (fuel : Nat) (w : World) (msg : String)
    (txtDoc : TextDocument) (e : QPlainTextEdit) (clip : String) (accepted : Bool)
    (hfuel : 7 ≤ fuel) :
    (∃ w0, construct fuel txtDoc e clip = some w0 ∧ w0.aboutToClose = false) ∧
    (closeEvent accepted w).aboutToClose = (accepted || w.aboutToClose) ∧
    closeEvent false w = w ∧
    (showEvent w).aboutToClose = w.aboutToClose ∧
    (labelChanged w).aboutToClose = w.aboutToClose ∧
    (∃ w', refresh fuel w = some w' ∧ w'.aboutToClose = w.aboutToClose) ∧
    (∃ w', saveToObject fuel w = some w' ∧ w'.aboutToClose = w.aboutToClose) ∧
    (∃ w', sourceChanged fuel w = some w' ∧ w'.aboutToClose = w.aboutToClose) ∧
    (∃ w', textChanged fuel w = some w' ∧ w'.aboutToClose = w.aboutToClose) ∧
    (∃ r w', onMsg ops fuel msg w = some (r, w') ∧ w'.aboutToClose = w.aboutToClose) := by
  obtain ⟨n, rfl⟩ := Nat.exists_eq_add_of_le' hfuel
  refine ⟨⟨_, construct_eq (n + 4) txtDoc e clip, rfl⟩, ?_, rfl, rfl, rfl,
    ⟨_, refresh_eq (n + 1) w, afterRefresh_aboutToClose w⟩,
    ⟨_, saveToObject_eq (n + 5) w, rfl⟩,
    ⟨_, sourceChanged_eq n w, afterRefresh_aboutToClose w⟩,
    ⟨_, textChanged_eq (n + 4) w, rfl⟩, ?_⟩
  · cases accepted <;> simp [closeEvent, updateEditorActions, World.log]
  · have hnative : ∀ (c : Call) (op : QPlainTextEdit → String → NativeResult),
        ∃ w', native (n + 7) c op w = some w' ∧ w'.aboutToClose = w.aboutToClose := by
      intro c op
      refine ⟨_, native_eq (n + 3) c op w, ?_⟩
      split
      · rw [afterEmit_aboutToClose]; rfl
      · rfl
    unfold onMsg
    split
    · exact ⟨_, _, rfl, rfl⟩
    split
    · rw [saveToObject_eq (n + 5) w]
      exact ⟨_, _, rfl, rfl⟩
    split
    · obtain ⟨w', hw, ha⟩ := hnative Call.cut ops.cut
      exact ⟨true, w', by rw [hw]; rfl, ha⟩
    split
    · obtain ⟨w', hw, ha⟩ := hnative Call.copy ops.copy
      exact ⟨true, w', by rw [hw]; rfl, ha⟩
    split
    · obtain ⟨w', hw, ha⟩ := hnative Call.paste ops.paste
      exact ⟨true, w', by rw [hw]; rfl, ha⟩
    split
    · obtain ⟨w', hw, ha⟩ := hnative Call.undo ops.undo
      exact ⟨true, w', by rw [hw]; rfl, ha⟩
    split
    · obtain ⟨w', hw, ha⟩ := hnative Call.redo ops.redo
      exact ⟨true, w', by rw [hw]; rfl, ha⟩
    · exact ⟨_, _, rfl, rfl⟩

theorem aboutToClose_latch_witness :
    7 ≤ 7 ∧
      (∃ r w', onMsg sampleOps 7 "Paste" sampleClosing = some (r, w') ∧
        w'.aboutToClose = true) :=
  ⟨by decide,
    (aboutToClose_latch sampleOps 7 sampleClosing "Paste" sampleDocument sampleEditor "clip"
      false (by decide)).2.2.2.2.2.2.2.2.2⟩

/-- C9: the window title of the view the constructor returns is the model's
label followed by `[*]`; `labelChanged` sets the title to the model's label
followed by `[*]` and leaves the model alone; and a label set on the model
through the connected label subscription ends up in the title in that form. -/
theorem windowTitle_follows_label (fuel : Nat) (w : World) (value : String)
    (txtDoc : TextDocument) (e : QPlainTextEdit) (clip : String) (hfuel : 3 ≤ fuel) :
    (∃ w0, construct fuel txtDoc e clip = some w0 ∧
      w0.windowTitle = txtDoc.Label ++ "[*]" ∧ w0.textDocument = txtDoc ∧
      w0.labelConnected = true) ∧
    (labelChanged w).windowTitle = w.textDocument.Label ++ "[*]" ∧
    (labelChanged w).textDocument = w.textDocument ∧
    (w.labelConnected = true →
      (Label_setValue value w).windowTitle = value ++ "[*]" ∧
      (Label_setValue value w).textDocument.Label = value) := by
  obtain ⟨n, rfl⟩ := Nat.exists_eq_add_of_le' hfuel
  refine ⟨⟨_, construct_eq n txtDoc e clip, rfl, rfl, rfl⟩, rfl, rfl, ?_⟩
  intro hc
  simp [Label_setValue, hc, labelChanged, setWindowTitle, World.log, QString.fromUtf8]

theorem windowTitle_follows_label_witness :
    3 ≤ 3 ∧
      (∃ w0, construct 3 sampleDocument sampleEditor "clip" = some w0 ∧
        w0.windowTitle = "Notes[*]" ∧ w0.textDocument = sampleDocument ∧
        w0.labelConnected = true) :=
  ⟨by decide,
    (windowTitle_follows_label 3 sampleView "Draft" sampleDocument sampleEditor "clip"
      (by decide)).1⟩

/-! ## The round trip started by `refresh` -/

end TextDocumentEditorView
